import Mathlib

/-!
# kbd_backlight

A shallow embedding of `kbd_backlight.c` (argument parsing, level computation
and the `main` control flow) together with the properties of its behaviour.

Conventions of the embedding.

* A C `int` is an `Int`; the result of `+` and `-` on `int` is reduced to 32 bits
  (`wrap32`), so a statement that needs "no overflow" says so.
* The two sysfs files are inputs of the run (`World`); what the program does to
  them and to the console is recorded as a list of `Event`s.
* `getopt` and `atoi` belong to libc; they are modelled after their glibc
  behaviour (`getopt` with the option string of the program).
-/

namespace KbdBacklight

/-! ## C integers and exit codes -/

def INT_MIN : Int := -2147483648

def INT_MAX : Int := 2147483647

def LONG_MIN : Int := -9223372036854775808

def LONG_MAX : Int := 9223372036854775807

/-- The `int` obtained from the exact value `x`: reduction modulo `2^32` into
`[INT_MIN, INT_MAX]`. -/
def wrap32 (x : Int) : Int := (x + 2147483648) % 4294967296 - 2147483648

def EXIT_SUCCESS : Int := 0

def EXIT_FAILURE : Int := 1

/-! ## Data model -/

inductive Action_t where
  | ACTION_NONE
  | ACTION_UP
  | ACTION_DOWN
  | ACTION_SET
  | ACTION_ZERO
  | ACTION_MAX
  deriving DecidableEq, Repr

/-- The record `Arguments_t`. Its anonymous union `{ int level; int increment; }`
is one `int` slot, stored in `level` and read under either name. -/
structure Arguments_t where
  action : Action_t
  level : Int
  deriving DecidableEq, Repr

/-- The union member `increment`: the same storage as `level`. -/
def Arguments_t.increment (args : Arguments_t) : Int := args.level

/-- What a run does to the outside: console output and accesses to the
brightness file, in program order. -/
inductive Event where
  /-- The diagnostic `Unable to obtain maximum level from ...` on stderr. -/
  | max_unavailable
  /-- A call `print_help(program, max_level)`. -/
  | print_help (program : String) (max_level : Int)
  /-- The call `fopen(kbd_file, "w+")` at the start of `change_level`. -/
  | fopen_brightness
  /-- The call `err(1, "%s", kbd_file)`. -/
  | err_brightness
  /-- The call `fprintf(fp_level, "%d", new_level)`: the new level is written. -/
  | write_level (new_level : Int)
  /-- The line `Changed level from curr_level to new_level`. -/
  | changed (curr_level new_level : Int)
  deriving DecidableEq, Repr

/-- How a function (or the process) ends. -/
inductive Status where
  /-- The function returns `rc`; for `main` this is the exit code. -/
  | returned (rc : Int)
  /-- The process was ended by `err(code, ...)`. -/
  | exited (code : Int)
  /-- An operation without defined behaviour was executed (`fclose(NULL)`,
  `atoi(NULL)`) or the loop bound of the model was exhausted. -/
  | undefined
  deriving DecidableEq, Repr

/-- The result of running a function: how it ends and what it did. -/
structure Run where
  status : Status
  trace : List Event
  deriving DecidableEq, Repr

/-- The exit code of the process, when it has one. -/
def Status.code : Status → Option Int
  | .returned rc => some rc
  | .exited code => some code
  | .undefined => none

/-- The levels written to the brightness file during a run. -/
def written : List Event → List Int
  | [] => []
  | .write_level n :: t => n :: written t
  | _ :: t => written t

/-- Whether `change_level` was entered: its first statement is the `fopen`. -/
def reached_change_level (trace : List Event) : Bool :=
  trace.contains .fopen_brightness

/-- The files the program works on.

* `max_brightness`: `none` when `fopen(max_file, "r")` fails; otherwise the
  integer `fscanf(.., "%d", ..)` converts, `none` when it converts nothing.
* `brightness`: the same for `fopen(kbd_file, "w+")` followed by `fscanf`. The
  file is a sysfs attribute: opening it leaves the level as it is, and the level
  changes only by a write (`Event.write_level`).
* `curr_level_indeterminate`: the content of the uninitialised local
  `curr_level`, which is what stays there when `fscanf` converts nothing. -/
structure World where
  max_brightness : Option (Option Int)
  brightness : Option (Option Int)
  curr_level_indeterminate : Int

/-! ## `change_level` -/

/-- The function `change_level`. `fp_level` is the outcome of opening and
scanning the brightness file, `indeterminate` what `curr_level` holds when
nothing was scanned. The sums of `ACTION_UP` and `ACTION_DOWN` are `int`
operations and are reduced to 32 bits; the two tests after the `switch` are the
clamp. When the file does not open, `err` ends the process with code `1`. -/
def change_level (fp_level : Option (Option Int)) (indeterminate : Int)
    (args : Arguments_t) (max_level : Int) : Run :=
  match fp_level with
  | none => ⟨.exited 1, [.fopen_brightness, .err_brightness]⟩
  | some scanned =>
    let curr_level : Int :=
      match scanned with
      | some v => v
      | none => indeterminate
    let switch : Option Int :=
      match args.action with
      | .ACTION_NONE => none
      | .ACTION_UP => some (wrap32 (curr_level + args.increment))
      | .ACTION_DOWN => some (wrap32 (curr_level - args.increment))
      | .ACTION_SET => some args.level
      | .ACTION_ZERO => some 0
      | .ACTION_MAX => some max_level
    match switch with
    | none => ⟨.returned EXIT_FAILURE, [.fopen_brightness]⟩
    | some new_level =>
      let new_level : Int :=
        if new_level > max_level then max_level
        else if new_level < 0 then 0
        else new_level
      ⟨.returned EXIT_SUCCESS,
        [.fopen_brightness, .write_level new_level, .changed curr_level new_level]⟩

/-! ## libc: `atoi` -/

/-- The whitespace of `isspace` in the C locale. -/
def isspace (c : Char) : Bool :=
  c = ' ' || (9 ≤ c.toNat && c.toNat ≤ 13)

def isdigit (c : Char) : Bool :=
  48 ≤ c.toNat && c.toNat ≤ 57

/-- The text left after leading whitespace and one optional sign, and whether
that sign was `-`. -/
def skipSign (nptr : List Char) : Bool × List Char :=
  match nptr.dropWhile isspace with
  | '-' :: t => (true, t)
  | '+' :: t => (false, t)
  | t => (false, t)

/-- The decimal digits `strtol` converts: the longest run of digits after
whitespace and sign. -/
def digitsOf (nptr : List Char) : List Char :=
  (skipSign nptr).2.takeWhile isdigit

def digitsValue (ds : List Char) : Nat :=
  ds.foldl (fun acc d => 10 * acc + (d.toNat - 48)) 0

/-- The function `strtol(nptr, NULL, 10)` with a 64-bit `long`: the value of
the digits, negated after `-`, brought to `LONG_MIN` or `LONG_MAX` when out of
range; `0` when there is no digit. -/
def strtol (nptr : List Char) : Int :=
  let v : Int := digitsValue (digitsOf nptr)
  let v : Int := if (skipSign nptr).1 then -v else v
  if v < LONG_MIN then LONG_MIN
  else if v > LONG_MAX then LONG_MAX
  else v

/-- The function `atoi(nptr)`, which glibc defines as `(int) strtol(nptr, NULL, 10)`. -/
def atoi (nptr : String) : Int :=
  wrap32 (strtol nptr.data)

/-! ## libc: `getopt` -/

/-- The scanning state of `getopt`: the elements `argv[optind ..]` not yet
looked at and the option characters left in the element being scanned. -/
structure Getopt where
  rest : List String
  nextchar : List Char
  deriving DecidableEq, Repr

/-- The state before the first call: `optind = 1`. -/
def Getopt.init (argv : List String) : Getopt :=
  ⟨argv.drop 1, []⟩

/-- Whether `c` is an option character of `optstring`, and if so whether it
takes an argument (it is followed by `:`). -/
def lookupOpt : List Char → Char → Option Bool
  | [], _ => none
  | o :: os, c => if o = c then some (os.head? = some ':') else lookupOpt os c

/-- The next element that holds options, as its characters after the `-`, and
the elements after it. `--` ends the options; an element that is `-` or does
not start with `-` is no option: scanning stops there when `posixly_correct`,
and skips it otherwise (glibc then moves it behind the options). -/
def nextOptElem (posixly_correct : Bool) : List String → Option (List Char × List String)
  | [] => none
  | a :: rest =>
    if a = "--" then none
    else
      match a.data with
      | '-' :: c :: cs => some (c :: cs, rest)
      | _ => if posixly_correct then none else nextOptElem posixly_correct rest

/-- The option characters `getopt` looks at next and the elements after them:
the rest of the element being scanned, or else the next element with options. -/
def scanPoint (posixly_correct : Bool) (st : Getopt) : Option (List Char × List String) :=
  match st.nextchar with
  | [] => nextOptElem posixly_correct st.rest
  | c :: cs => some (c :: cs, st.rest)

/-- One call of `getopt(argc, argv, optstring)`: the returned character
(`none` for `-1`), the value of `optarg`, and the state after the call. An
unknown option character and a missing argument give `?` (the option string
does not start with `:`). -/
def getopt (posixly_correct : Bool) (optstring : List Char) (st : Getopt) :
    Option Char × Option String × Getopt :=
  match scanPoint posixly_correct st with
  | none => (none, none, ⟨[], []⟩)
  | some ([], rest) => (none, none, ⟨rest, []⟩)
  | some (c :: cs, rest) =>
    match (if c = ':' ∨ c = ';' then none else lookupOpt optstring c) with
    | none => (some '?', none, ⟨rest, cs⟩)
    | some false => (some c, none, ⟨rest, cs⟩)
    | some true =>
      match cs, rest with
      | _ :: _, _ => (some c, some (String.mk cs), ⟨rest, []⟩)
      | [], a :: rest => (some c, some a, ⟨rest, []⟩)
      | [], [] => (some '?', none, ⟨[], []⟩)

/-! ## `get_args` -/

/-- The option string of the program. -/
def optstring : List Char := "u:d:s:moh".data

/-- The `while` loop of `get_args`, at most `fuel` iterations. The result is
the return value, `*args` and the output; `none` stands for `atoi(NULL)` or
for `fuel` exhausted. -/
def get_args_loop (posixly_correct : Bool) (program : String) (max_level : Int) :
    Nat → Getopt → Arguments_t → Option (Int × Arguments_t × List Event)
  | 0, _, _ => none
  | fuel + 1, st, args =>
    match getopt posixly_correct optstring st with
    | (none, _, _) => some (EXIT_SUCCESS, args, [])
    | (some ch, optarg, st) =>
      let fail (args : Arguments_t) : Option (Int × Arguments_t × List Event) :=
        some (EXIT_FAILURE, args, [.print_help program max_level])
      let next (args : Arguments_t) : Option (Int × Arguments_t × List Event) :=
        if args.action ≠ .ACTION_NONE then some (EXIT_SUCCESS, args, [])
        else get_args_loop posixly_correct program max_level fuel st args
      if ch = 'u' then
        match optarg with
        | none => none
        | some optarg =>
          let args : Arguments_t := ⟨.ACTION_UP, atoi optarg⟩
          if args.increment < 0 ∨ args.increment > max_level then fail args
          else next args
      else if ch = 'd' then
        match optarg with
        | none => none
        | some optarg =>
          let args : Arguments_t := ⟨.ACTION_DOWN, atoi optarg⟩
          if args.increment < 0 ∨ args.increment > max_level then fail args
          else next args
      else if ch = 's' then
        match optarg with
        | none => none
        | some optarg =>
          let args : Arguments_t := ⟨.ACTION_SET, atoi optarg⟩
          if args.level < 0 ∨ args.level > max_level then fail args
          else next args
      else if ch = 'm' then next ⟨.ACTION_MAX, args.level⟩
      else if ch = 'o' then next ⟨.ACTION_ZERO, args.level⟩
      else fail args

/-- The number of characters of the arguments: no run of the loop of
`get_args` has more iterations. -/
def argvSize (argv : List String) : Nat :=
  (argv.map String.length).sum

/-- The function `get_args`: the loop started on `argv` with `optind = 1`;
`argv[0]` is the program name printed in the help text. -/
def get_args (posixly_correct : Bool) (argv : List String) (max_level : Int)
    (args : Arguments_t) : Option (Int × Arguments_t × List Event) :=
  get_args_loop posixly_correct (argv.headD "") max_level (argvSize argv + 1)
    (Getopt.init argv) args

/-! ## `get_max_level` and `main` -/

/-- The function `get_max_level`: the value left in `*max_level` and the
output, or `none` when the file cannot be opened, where the function goes on to
`fclose(NULL)`. -/
def get_max_level (fp_max_level : Option (Option Int)) : Option Int × List Event :=
  match fp_max_level with
  | none => (none, [.max_unavailable])
  | some none => (some 100, [])
  | some (some v) => (some v, [])

/-- The function `main`: `args` starts as `{0}`, that is `ACTION_NONE` with
operand `0`; a non-zero return value of `get_args` or of `change_level` is the
exit code. -/
def main (posixly_correct : Bool) (w : World) (argv : List String) : Run :=
  match get_max_level w.max_brightness with
  | (none, out) => ⟨.undefined, out⟩
  | (some max_level, out) =>
    match get_args posixly_correct argv max_level ⟨.ACTION_NONE, 0⟩ with
    | none => ⟨.undefined, out⟩
    | some (rc, args, out_args) =>
      if rc ≠ 0 then ⟨.returned rc, out ++ out_args⟩
      else
        let r := change_level w.brightness w.curr_level_indeterminate args max_level
        match r.status with
        | .returned rc =>
          if rc ≠ 0 then ⟨.returned rc, out ++ out_args ++ r.trace⟩
          else ⟨.returned EXIT_SUCCESS, out ++ out_args ++ r.trace⟩
        | s => ⟨s, out ++ out_args ++ r.trace⟩

/-! ## Vocabulary of the statements -/

/-- An argument that `getopt` reads as options: it starts with `-`, has a
character after it, and is not the terminator `--`. -/
def isOptionFlag (a : String) : Bool :=
  match a.data with
  | '-' :: _ :: _ => a ≠ "--"
  | _ => false

/-- The integer an operand denotes as a decimal numeral: the exact value of its
digits after whitespace and sign, of any size (`strtol` before it saturates,
`atoi` before the cast to `int`). -/
def decimalValue (nptr : String) : Int :=
  let v : Int := digitsValue (digitsOf nptr.data)
  if (skipSign nptr.data).1 then -v else v

/-! ## Auxiliary facts -/

/-- A value that is an `int` is left as it is by the reduction to 32 bits. -/
theorem wrap32_of_int (x : Int) (hlo : INT_MIN ≤ x) (hhi : x ≤ INT_MAX) : wrap32 x = x := by
  unfold INT_MIN at hlo
  unfold INT_MAX at hhi
  unfold wrap32
  omega

/-- When the first call of `getopt` returns `-1`, `get_args` returns success and
leaves `*args` as it was. -/
theorem get_args_done (pc : Bool) (argv : List String) (max_level : Int) (args : Arguments_t)
    (optarg : Option String) (st : Getopt)
    (h : getopt pc optstring (Getopt.init argv) = (none, optarg, st)) :
    get_args pc argv max_level args = some (EXIT_SUCCESS, args, []) := by
  simp only [get_args, get_args_loop, h]

/-- When the first call of `getopt` returns `u`, `d` or `s` with its argument,
`get_args` stores the action and `atoi(optarg)` and returns after this one
option: failure with the help text when the value is outside `[0, max_level]`,
success otherwise. -/
theorem get_args_operand (pc : Bool) (argv : List String) (max_level : Int) (args : Arguments_t)
    (ch : Char) (operand : String) (st : Getopt)
    (h : getopt pc optstring (Getopt.init argv) = (some ch, some operand, st))
    (hch : ch = 'u' ∨ ch = 'd' ∨ ch = 's') :
    get_args pc argv max_level args =
      if atoi operand < 0 ∨ atoi operand > max_level then
        some (EXIT_FAILURE,
          ⟨if ch = 'u' then .ACTION_UP else if ch = 'd' then .ACTION_DOWN else .ACTION_SET,
            atoi operand⟩,
          [.print_help (argv.headD "") max_level])
      else
        some (EXIT_SUCCESS,
          ⟨if ch = 'u' then .ACTION_UP else if ch = 'd' then .ACTION_DOWN else .ACTION_SET,
            atoi operand⟩, []) := by
  rcases hch with rfl | rfl | rfl <;>
    simp [get_args, get_args_loop, h, Arguments_t.increment]

/-- When the first call of `getopt` returns `m`, `get_args` selects `ACTION_MAX`
and returns success. -/
theorem get_args_max (pc : Bool) (argv : List String) (max_level : Int) (args : Arguments_t)
    (optarg : Option String) (st : Getopt)
    (h : getopt pc optstring (Getopt.init argv) = (some 'm', optarg, st)) :
    get_args pc argv max_level args = some (EXIT_SUCCESS, ⟨.ACTION_MAX, args.level⟩, []) := by
  simp [get_args, get_args_loop, h]

/-- When the first call of `getopt` returns `o`, `get_args` selects `ACTION_ZERO`
and returns success. -/
theorem get_args_zero (pc : Bool) (argv : List String) (max_level : Int) (args : Arguments_t)
    (optarg : Option String) (st : Getopt)
    (h : getopt pc optstring (Getopt.init argv) = (some 'o', optarg, st)) :
    get_args pc argv max_level args = some (EXIT_SUCCESS, ⟨.ACTION_ZERO, args.level⟩, []) := by
  simp [get_args, get_args_loop, h]

/-- A list without option flags holds no element for `getopt` to scan. -/
theorem nextOptElem_none (pc : Bool) (l : List String) (h : ∀ a ∈ l, isOptionFlag a = false) :
    nextOptElem pc l = none := by
  induction l with
  | nil => rfl
  | cons a t ih =>
    have ha := h a (List.mem_cons_self a t)
    have ht := ih (fun b hb => h b (List.mem_cons_of_mem a hb))
    unfold nextOptElem
    by_cases hdd : a = "--"
    · simp [hdd]
    · simp only [hdd, if_false]
      unfold isOptionFlag at ha
      split
      · rename_i c cs heq
        simp [heq, hdd] at ha
      · simp [ht]

/-- Whenever `getopt` returns `u`, `d` or `s`, it has set `optarg`. -/
theorem getopt_optarg (pc : Bool) (st st1 : Getopt) (ch : Char) (optarg : Option String)
    (h : getopt pc optstring st = (some ch, optarg, st1))
    (hch : ch = 'u' ∨ ch = 'd' ∨ ch = 's') : ∃ s, optarg = some s := by
  unfold getopt at h
  generalize scanPoint pc st = elem at h
  split at h
  · simp at h
  · simp at h
  · rename_i c cs rest
    split at h
    · simp only [Prod.mk.injEq, Option.some.injEq] at h
      obtain ⟨h1, -, -⟩ := h
      subst h1
      rcases hch with hc | hc | hc <;> simp at hc
    · rename_i heq
      simp only [Prod.mk.injEq, Option.some.injEq] at h
      obtain ⟨h1, -, -⟩ := h
      subst h1
      rcases hch with rfl | rfl | rfl <;> simp [optstring, lookupOpt] at heq
    · split at h
      · simp only [Prod.mk.injEq] at h
        exact ⟨_, h.2.1.symm⟩
      · simp only [Prod.mk.injEq] at h
        exact ⟨_, h.2.1.symm⟩
      · simp only [Prod.mk.injEq, Option.some.injEq] at h
        obtain ⟨h1, -, -⟩ := h
        subst h1
        rcases hch with hc | hc | hc <;> simp at hc

/-- The loop of `get_args` always ends with a return value: it never runs out
of iterations and never reaches `atoi(NULL)`. -/
theorem get_args_returns (pc : Bool) (argv : List String) (max_level : Int)
    (args : Arguments_t) :
    ∃ rc args1 out, get_args pc argv max_level args = some (rc, args1, out) ∧
      (rc = EXIT_SUCCESS ∨ rc = EXIT_FAILURE) := by
  rcases hg : getopt pc optstring (Getopt.init argv) with ⟨ch, optarg, st⟩
  cases ch with
  | none => exact ⟨_, _, _, get_args_done pc argv max_level args optarg st hg, Or.inl rfl⟩
  | some ch =>
    by_cases hu : ch = 'u' ∨ ch = 'd' ∨ ch = 's'
    · obtain ⟨s, rfl⟩ := getopt_optarg pc _ st ch optarg hg hu
      rw [get_args_operand pc argv max_level args ch s st hg hu]
      split
      · exact ⟨_, _, _, rfl, Or.inr rfl⟩
      · exact ⟨_, _, _, rfl, Or.inl rfl⟩
    · by_cases hm : ch = 'm'
      · subst hm
        exact ⟨_, _, _, get_args_max pc argv max_level args optarg st hg, Or.inl rfl⟩
      · by_cases ho : ch = 'o'
        · subst ho
          exact ⟨_, _, _, get_args_zero pc argv max_level args optarg st hg, Or.inl rfl⟩
        · push_neg at hu
          refine ⟨EXIT_FAILURE, args, [.print_help (argv.headD "") max_level], ?_, Or.inr rfl⟩
          simp [get_args, get_args_loop, hg, hu.1, hu.2.1, hu.2.2, hm, ho]

/-- No digits have the value `0`. -/
theorem digitsValue_nil : digitsValue [] = 0 := rfl

/-- An operand whose decimal value fits an `int` is converted to that value by
`atoi`. -/
theorem atoi_of_fits (s : String) (hlo : INT_MIN ≤ decimalValue s)
    (hhi : decimalValue s ≤ INT_MAX) : atoi s = decimalValue s := by
  have hs : strtol s.data = decimalValue s := by
    have h1 : ¬ decimalValue s < LONG_MIN := by
      unfold INT_MIN at hlo
      unfold LONG_MIN
      omega
    have h2 : ¬ decimalValue s > LONG_MAX := by
      unfold INT_MAX at hhi
      unfold LONG_MAX
      omega
    show (if decimalValue s < LONG_MIN then LONG_MIN
      else if decimalValue s > LONG_MAX then LONG_MAX else decimalValue s) = decimalValue s
    rw [if_neg h1, if_neg h2]
  unfold atoi
  rw [hs]
  exact wrap32_of_int _ hlo hhi

/-- A text without a leading decimal integer is converted to `0` by `atoi`. -/
theorem atoi_no_digits (s : String) (h : digitsOf s.data = []) : atoi s = 0 := by
  unfold atoi strtol
  rw [h, digitsValue_nil]
  simp [LONG_MIN, LONG_MAX, wrap32]

/-- The control flow of `main` once `get_max_level` has produced `max_level` and
`get_args` has returned: a non-zero return value of `get_args` is the exit
code, otherwise the run is the one of `change_level`. -/
theorem main_of_get_args (pc : Bool) (w : World) (argv : List String) (max_level rc : Int)
    (args : Arguments_t) (out : List Event)
    (hmax : (get_max_level w.max_brightness).1 = some max_level)
    (hargs : get_args pc argv max_level ⟨.ACTION_NONE, 0⟩ = some (rc, args, out)) :
    main pc w argv =
      if rc ≠ 0 then ⟨.returned rc, out⟩
      else ⟨(change_level w.brightness w.curr_level_indeterminate args max_level).status,
        out ++ (change_level w.brightness w.curr_level_indeterminate args max_level).trace⟩ := by
  obtain ⟨mb, b, g⟩ := w
  have hm : get_max_level mb = (some max_level, []) := by
    rcases mb with _ | _ | v <;> simp_all [get_max_level]
  simp only [main, hm, hargs]
  split
  · simp
  · simp only [List.nil_append]
    split
    · rename_i rc1 hst
      split <;> simp_all [EXIT_SUCCESS]
    · rename_i s hst
      rfl

/-! ## The level computation: `change_level` -/

/-- C1: in `change_level`, for every `max_level >= 0`, every current level (read
from the file or left indeterminate, inside `[0, max_level]` or not) and every
action other than `ACTION_NONE` with any operand, a call that opens the file
succeeds and writes one new level with `0 <= new level <= max_level`; no call
writes a level outside these bounds. -/
theorem change_level_clamped (max_level indeterminate : Int) (scanned : Option Int)
    (args : Arguments_t) (hmax : 0 ≤ max_level) (hact : args.action ≠ .ACTION_NONE) :
    (∃ new_level : Int,
      change_level (some scanned) indeterminate args max_level =
        ⟨.returned EXIT_SUCCESS,
          [.fopen_brightness, .write_level new_level,
            .changed (scanned.getD indeterminate) new_level]⟩ ∧
      0 ≤ new_level ∧ new_level ≤ max_level) ∧
    ∀ fp_level : Option (Option Int),
      ∀ n ∈ written (change_level fp_level indeterminate args max_level).trace,
        0 ≤ n ∧ n ≤ max_level := by
  have key : ∀ scanned : Option Int, ∃ new_level : Int,
      change_level (some scanned) indeterminate args max_level =
        ⟨.returned EXIT_SUCCESS,
          [.fopen_brightness, .write_level new_level,
            .changed (scanned.getD indeterminate) new_level]⟩ ∧
      0 ≤ new_level ∧ new_level ≤ max_level := by
    intro scanned
    obtain ⟨action, level⟩ := args
    cases scanned <;> cases action <;> simp [change_level] at hact ⊢ <;>
      split_ifs <;> omega
  refine ⟨key scanned, ?_⟩
  intro fp_level n hn
  cases fp_level with
  | none => simp [change_level, written] at hn
  | some sc =>
    obtain ⟨m, hm, h0, h1⟩ := key sc
    rw [hm] at hn
    simp [written] at hn
    subst hn
    exact ⟨h0, h1⟩

/-- Witness of C1: `max_level = 100`, current level `250` (outside the range),
`-d 7`. -/
theorem change_level_clamped_witness :
    (∃ new_level : Int,
      change_level (some (some 250)) 0 ⟨.ACTION_DOWN, 7⟩ 100 =
        ⟨.returned EXIT_SUCCESS,
          [.fopen_brightness, .write_level new_level,
            .changed ((some 250 : Option Int).getD 0) new_level]⟩ ∧
      0 ≤ new_level ∧ new_level ≤ 100) ∧
    ∀ fp_level : Option (Option Int),
      ∀ n ∈ written (change_level fp_level 0 ⟨.ACTION_DOWN, 7⟩ 100).trace,
        0 ≤ n ∧ n ≤ 100 :=
  change_level_clamped 100 0 (some 250) ⟨.ACTION_DOWN, 7⟩ (by decide) (by decide)

/-- Counterexample to C2 as stated: with `max_level = 2147483647`, current level
`2147483647` and increment `1` (all within the stated bounds) the sum does not
fit an `int`; the level written is `0`, not `min (current + k) max_level`. -/
theorem increase_overflow :
    (0 : Int) ≤ 2147483647 ∧ (2147483647 : Int) ≤ INT_MAX ∧
    (0 : Int) ≤ 2147483647 ∧ (2147483647 : Int) ≤ 2147483647 ∧
    (0 : Int) ≤ 1 ∧ (1 : Int) ≤ 2147483647 ∧
    change_level (some (some 2147483647)) 0 ⟨.ACTION_UP, 1⟩ 2147483647 =
      ⟨.returned EXIT_SUCCESS,
        [.fopen_brightness, .write_level 0, .changed 2147483647 0]⟩ ∧
    min ((2147483647 : Int) + 1) 2147483647 = 2147483647 ∧
    written (change_level (some (some 2147483647)) 0 ⟨.ACTION_UP, 1⟩ 2147483647).trace ≠
      [min ((2147483647 : Int) + 1) 2147483647] := by
  decide

/-- C2, amended: in `change_level` with `ACTION_UP`, for `max_level >= 0`, a current
level in `[0, max_level]` and an increment `k` in `[0, max_level]` whose sum
`current + k` fits an `int`, the call succeeds and the level written is
`min (current + k) max_level`, which is `max_level` when `current + k > max_level`. -/
theorem increase_min (max_level curr k indeterminate : Int)
    (_hmax : 0 ≤ max_level) (hc0 : 0 ≤ curr) (_hc1 : curr ≤ max_level)
    (hk0 : 0 ≤ k) (_hk1 : k ≤ max_level) (hfit : curr + k ≤ INT_MAX) :
    change_level (some (some curr)) indeterminate ⟨.ACTION_UP, k⟩ max_level =
      ⟨.returned EXIT_SUCCESS,
        [.fopen_brightness, .write_level (min (curr + k) max_level),
          .changed curr (min (curr + k) max_level)]⟩ ∧
    (curr + k > max_level → min (curr + k) max_level = max_level) := by
  have hw : wrap32 (curr + k) = curr + k :=
    wrap32_of_int _ (by unfold INT_MIN; omega) hfit
  refine ⟨?_, fun h => min_eq_right (le_of_lt h)⟩
  simp only [change_level, Arguments_t.increment, hw]
  by_cases h : curr + k > max_level
  · simp [h, min_eq_right (le_of_lt h)]
  · have h1 : ¬ curr + k < 0 := by omega
    simp [h, h1, min_eq_left (not_lt.mp h)]

/-- Witness of C2 (amended): `max_level = 100`, current level `90`, `-u 20` writes
`min (90 + 20) 100 = 100`. -/
theorem increase_min_witness :
    change_level (some (some 90)) 0 ⟨.ACTION_UP, 20⟩ 100 =
      ⟨.returned EXIT_SUCCESS,
        [.fopen_brightness, .write_level (min (90 + 20) 100),
          .changed 90 (min (90 + 20) 100)]⟩ ∧
    ((90 : Int) + 20 > 100 → min ((90 : Int) + 20) 100 = 100) :=
  increase_min 100 90 20 0 (by decide) (by decide) (by decide) (by decide) (by decide)
    (by decide)

/-- C3: in `change_level` with `ACTION_DOWN`, for every `max_level >= 0` (an `int`),
every current level in `[0, max_level]` and every decrement `k` in `[0, max_level]`,
the call succeeds and the level written is `max (current - k) 0`, which is never
negative. -/
theorem decrease_max (max_level curr k indeterminate : Int)
    (_hmax : 0 ≤ max_level) (hint : max_level ≤ INT_MAX)
    (hc0 : 0 ≤ curr) (hc1 : curr ≤ max_level)
    (hk0 : 0 ≤ k) (hk1 : k ≤ max_level) :
    change_level (some (some curr)) indeterminate ⟨.ACTION_DOWN, k⟩ max_level =
      ⟨.returned EXIT_SUCCESS,
        [.fopen_brightness, .write_level (max (curr - k) 0),
          .changed curr (max (curr - k) 0)]⟩ ∧
    0 ≤ max (curr - k) 0 := by
  have hw : wrap32 (curr - k) = curr - k :=
    wrap32_of_int _ (by unfold INT_MIN; unfold INT_MAX at hint; omega) (by omega)
  refine ⟨?_, le_max_right _ _⟩
  simp only [change_level, Arguments_t.increment, hw]
  have h : ¬ curr - k > max_level := by omega
  by_cases h1 : curr - k < 0
  · simp [h, h1, max_eq_right (le_of_lt h1)]
  · simp [h, h1, max_eq_left (not_lt.mp h1)]

/-- Witness of C3: `max_level = 100`, current level `5`, `-d 20` writes
`max (5 - 20) 0 = 0`. -/
theorem decrease_max_witness :
    change_level (some (some 5)) 0 ⟨.ACTION_DOWN, 20⟩ 100 =
      ⟨.returned EXIT_SUCCESS,
        [.fopen_brightness, .write_level (max (5 - 20) 0),
          .changed 5 (max (5 - 20) 0)]⟩ ∧
    (0 : Int) ≤ max (5 - 20) 0 :=
  decrease_max 100 5 20 0 (by decide) (by decide) (by decide) (by decide) (by decide)
    (by decide)

/-- C4: in `change_level` with `ACTION_SET`, for every `max_level`, every operand
`v` with `0 <= v <= max_level` and every current level, the level written is
exactly `v` and the call returns `EXIT_SUCCESS`. -/
theorem set_exact (max_level v indeterminate : Int) (scanned : Option Int)
    (hv0 : 0 ≤ v) (hv1 : v ≤ max_level) :
    change_level (some scanned) indeterminate ⟨.ACTION_SET, v⟩ max_level =
      ⟨.returned EXIT_SUCCESS,
        [.fopen_brightness, .write_level v, .changed (scanned.getD indeterminate) v]⟩ := by
  have h : ¬ v > max_level := by omega
  have h1 : ¬ v < 0 := by omega
  cases scanned <;> simp [change_level, h, h1]

/-- Witness of C4: `max_level = 100`, `-s 37` with current level `12`. -/
theorem set_exact_witness :
    change_level (some (some 12)) 0 ⟨.ACTION_SET, 37⟩ 100 =
      ⟨.returned EXIT_SUCCESS,
        [.fopen_brightness, .write_level 37, .changed ((some 12 : Option Int).getD 0) 37]⟩ :=
  set_exact 100 37 0 (some 12) (by decide) (by decide)

/-! ## Argument parsing and `main` -/

/-- Counterexample to C5 as stated: the operand of `-s 4294967396` denotes the
integer `4294967396`, which is above `max_level = 100`, but the cast to `int` in
`atoi` leaves `100`; `get_args` returns success with `ACTION_SET` and level
`100`, and `main` reaches `change_level`, writes `100` and exits with code `0`. -/
theorem oversized_operand_accepted :
    getopt false optstring (Getopt.init ["kbd_backlight", "-s", "4294967396"]) =
      (some 's', some "4294967396", ⟨[], []⟩) ∧
    decimalValue "4294967396" = 4294967396 ∧
    decimalValue "4294967396" > 100 ∧
    atoi "4294967396" = 100 ∧
    get_args false ["kbd_backlight", "-s", "4294967396"] 100 ⟨.ACTION_NONE, 0⟩ =
      some (EXIT_SUCCESS, ⟨.ACTION_SET, 100⟩, []) ∧
    main false ⟨some (some 100), some (some 40), 0⟩ ["kbd_backlight", "-s", "4294967396"] =
      ⟨.returned EXIT_SUCCESS, [.fopen_brightness, .write_level 100, .changed 40 100]⟩ ∧
    EXIT_SUCCESS = 0 ∧
    reached_change_level (main false ⟨some (some 100), some (some 40), 0⟩
      ["kbd_backlight", "-s", "4294967396"]).trace = true := by
  decide

/-- C5, amended: for every `max_level` and every argument list whose first option
is `-u`, `-d` or `-s` with an operand that `atoi` converts to the `int` `n` (the
operand's decimal value whenever that fits an `int`, see `atoi_of_fits`) with
`n < 0` or `n > max_level`, `get_args` returns `EXIT_FAILURE` after printing the
help text, `main` returns that non-zero code, `change_level` is not reached and
no level is written. -/
theorem invalid_operand_fails (pc : Bool) (w : World) (argv : List String)
    (max_level : Int) (ch : Char) (operand : String) (st : Getopt)
    (hmax : (get_max_level w.max_brightness).1 = some max_level)
    (hfirst : getopt pc optstring (Getopt.init argv) = (some ch, some operand, st))
    (hch : ch = 'u' ∨ ch = 'd' ∨ ch = 's')
    (hbad : atoi operand < 0 ∨ atoi operand > max_level) :
    (∀ args : Arguments_t, get_args pc argv max_level args =
      some (EXIT_FAILURE,
        ⟨if ch = 'u' then .ACTION_UP else if ch = 'd' then .ACTION_DOWN else .ACTION_SET,
          atoi operand⟩,
        [.print_help (argv.headD "") max_level])) ∧
    main pc w argv = ⟨.returned EXIT_FAILURE, [.print_help (argv.headD "") max_level]⟩ ∧
    EXIT_FAILURE ≠ 0 ∧
    reached_change_level (main pc w argv).trace = false ∧
    written (main pc w argv).trace = [] := by
  have hg : ∀ args : Arguments_t, get_args pc argv max_level args =
      some (EXIT_FAILURE,
        ⟨if ch = 'u' then .ACTION_UP else if ch = 'd' then .ACTION_DOWN else .ACTION_SET,
          atoi operand⟩,
        [.print_help (argv.headD "") max_level]) := by
    intro args
    rw [get_args_operand pc argv max_level args ch operand st hfirst hch, if_pos hbad]
  have hm : main pc w argv =
      ⟨.returned EXIT_FAILURE, [.print_help (argv.headD "") max_level]⟩ := by
    rw [main_of_get_args pc w argv max_level _ _ _ hmax (hg _)]
    simp [EXIT_FAILURE]
  refine ⟨hg, hm, by decide, ?_, ?_⟩
  · rw [hm]
    simp [reached_change_level]
  · rw [hm]
    rfl

/-- Witness of C5 (amended): `-s 150` with `max_level = 100`. -/
theorem invalid_operand_fails_witness :
    (∀ args : Arguments_t,
      get_args false ["kbd_backlight", "-s", "150"] 100 args =
        some (EXIT_FAILURE, ⟨.ACTION_SET, 150⟩, [.print_help "kbd_backlight" 100])) ∧
    main false ⟨some (some 100), some (some 40), 0⟩ ["kbd_backlight", "-s", "150"] =
      ⟨.returned EXIT_FAILURE, [.print_help "kbd_backlight" 100]⟩ ∧
    written (main false ⟨some (some 100), some (some 40), 0⟩
      ["kbd_backlight", "-s", "150"]).trace = [] := by
  have h := invalid_operand_fails false ⟨some (some 100), some (some 40), 0⟩
    ["kbd_backlight", "-s", "150"] 100 's' "150" ⟨[], []⟩ (by rfl) (by rfl) (by decide)
    (by decide)
  exact ⟨h.1, h.2.1, h.2.2.2.2⟩

/-- Counterexample to C6 as stated: for `-s abc` with `max_level = 100` the
operand has no digit, `get_args` returns success with `ACTION_SET` and level `0`,
and `main` writes the level `0` and exits with code `0`. -/
theorem unparsable_operand_accepted :
    digitsOf "abc".data = [] ∧
    getopt false optstring (Getopt.init ["kbd_backlight", "-s", "abc"]) =
      (some 's', some "abc", ⟨[], []⟩) ∧
    get_args false ["kbd_backlight", "-s", "abc"] 100 ⟨.ACTION_NONE, 0⟩ =
      some (EXIT_SUCCESS, ⟨.ACTION_SET, 0⟩, []) ∧
    main false ⟨some (some 100), some (some 40), 0⟩ ["kbd_backlight", "-s", "abc"] =
      ⟨.returned EXIT_SUCCESS, [.fopen_brightness, .write_level 0, .changed 40 0]⟩ ∧
    EXIT_SUCCESS = 0 := by
  decide

/-- C6, amended: for every `max_level >= 0` and every argument list whose first
option is `-u`, `-d` or `-s` with an operand that has no leading decimal integer
(such as `abc`), `atoi` converts the operand to `0`, `get_args` returns success
with that action and operand `0`, and `main` goes on to `change_level` with
these arguments: its run is the run of `change_level`. -/
theorem unparsable_operand_is_zero (pc : Bool) (w : World) (argv : List String)
    (max_level : Int) (ch : Char) (operand : String) (st : Getopt)
    (hmax : (get_max_level w.max_brightness).1 = some max_level)
    (hfirst : getopt pc optstring (Getopt.init argv) = (some ch, some operand, st))
    (hch : ch = 'u' ∨ ch = 'd' ∨ ch = 's')
    (hunparsable : digitsOf operand.data = [])
    (hnonneg : 0 ≤ max_level) :
    atoi operand = 0 ∧
    (∀ args : Arguments_t, get_args pc argv max_level args =
      some (EXIT_SUCCESS,
        ⟨if ch = 'u' then .ACTION_UP else if ch = 'd' then .ACTION_DOWN else .ACTION_SET, 0⟩,
        [])) ∧
    main pc w argv =
      change_level w.brightness w.curr_level_indeterminate
        ⟨if ch = 'u' then .ACTION_UP else if ch = 'd' then .ACTION_DOWN else .ACTION_SET, 0⟩
        max_level ∧
    reached_change_level (main pc w argv).trace = true := by
  have h0 : atoi operand = 0 := atoi_no_digits operand hunparsable
  have hg : ∀ args : Arguments_t, get_args pc argv max_level args =
      some (EXIT_SUCCESS,
        ⟨if ch = 'u' then .ACTION_UP else if ch = 'd' then .ACTION_DOWN else .ACTION_SET, 0⟩,
        []) := by
    intro args
    rw [get_args_operand pc argv max_level args ch operand st hfirst hch, h0,
      if_neg (by omega)]
  have hm : main pc w argv =
      change_level w.brightness w.curr_level_indeterminate
        ⟨if ch = 'u' then .ACTION_UP else if ch = 'd' then .ACTION_DOWN else .ACTION_SET, 0⟩
        max_level := by
    rw [main_of_get_args pc w argv max_level _ _ _ hmax (hg _)]
    simp [EXIT_SUCCESS]
  refine ⟨h0, hg, hm, ?_⟩
  rw [hm]
  obtain ⟨mb, b, g⟩ := w
  rcases hch with rfl | rfl | rfl <;> rcases b with _ | b <;>
    simp [change_level, reached_change_level]

/-- Witness of C6 (amended): `-s abc` with `max_level = 100`. -/
theorem unparsable_operand_is_zero_witness :
    atoi "abc" = 0 ∧
    main false ⟨some (some 100), some (some 40), 0⟩ ["kbd_backlight", "-s", "abc"] =
      change_level (some (some 40)) 0 ⟨.ACTION_SET, 0⟩ 100 := by
  have h := unparsable_operand_is_zero false ⟨some (some 100), some (some 40), 0⟩
    ["kbd_backlight", "-s", "abc"] 100 's' "abc" ⟨[], []⟩ (by rfl) (by rfl) (by decide)
    (by decide) (by decide)
  exact ⟨h.1, h.2.2.1⟩

/-- Counterexample to C7 as stated: with `max_level = -1` the action `ACTION_MAX`
writes the level `0`, not `max_level`. -/
theorem maximum_negative_max :
    change_level (some (some 5)) 0 ⟨.ACTION_MAX, 0⟩ (-1) =
      ⟨.returned EXIT_SUCCESS, [.fopen_brightness, .write_level 0, .changed 5 0]⟩ ∧
    written (change_level (some (some 5)) 0 ⟨.ACTION_MAX, 0⟩ (-1)).trace ≠ [-1] := by
  decide

/-- C7, amended: in `change_level` with `ACTION_MAX`, for every current level and
every `max_level >= 0`, the level written is `max_level`. -/
theorem maximum_exact (max_level indeterminate operand : Int) (scanned : Option Int)
    (hmax : 0 ≤ max_level) :
    change_level (some scanned) indeterminate ⟨.ACTION_MAX, operand⟩ max_level =
      ⟨.returned EXIT_SUCCESS,
        [.fopen_brightness, .write_level max_level,
          .changed (scanned.getD indeterminate) max_level]⟩ := by
  have h1 : ¬ max_level < 0 := by omega
  cases scanned <;> simp [change_level, h1]

/-- Witness of C7 (amended): `max_level = 255`, current level `3`. -/
theorem maximum_exact_witness :
    change_level (some (some 3)) 0 ⟨.ACTION_MAX, 0⟩ 255 =
      ⟨.returned EXIT_SUCCESS,
        [.fopen_brightness, .write_level 255,
          .changed ((some 3 : Option Int).getD 0) 255]⟩ :=
  maximum_exact 255 0 0 (some 3) (by decide)

/-- Counterexample to C8 as stated: with `max_level = -1` the action `ACTION_ZERO`
writes the level `-1`, not `0`. -/
theorem zero_negative_max :
    change_level (some (some 5)) 0 ⟨.ACTION_ZERO, 0⟩ (-1) =
      ⟨.returned EXIT_SUCCESS, [.fopen_brightness, .write_level (-1), .changed 5 (-1)]⟩ ∧
    written (change_level (some (some 5)) 0 ⟨.ACTION_ZERO, 0⟩ (-1)).trace ≠ [0] := by
  decide

/-- C8, amended: in `change_level` with `ACTION_ZERO`, for every current level and
every `max_level >= 0`, the level written is `0`. -/
theorem zero_exact (max_level indeterminate operand : Int) (scanned : Option Int)
    (hmax : 0 ≤ max_level) :
    change_level (some scanned) indeterminate ⟨.ACTION_ZERO, operand⟩ max_level =
      ⟨.returned EXIT_SUCCESS,
        [.fopen_brightness, .write_level 0, .changed (scanned.getD indeterminate) 0]⟩ := by
  have h1 : ¬ (0 : Int) > max_level := by omega
  cases scanned <;> simp [change_level, h1]

/-- Witness of C8 (amended): `max_level = 255`, current level `77`. -/
theorem zero_exact_witness :
    change_level (some (some 77)) 0 ⟨.ACTION_ZERO, 0⟩ 255 =
      ⟨.returned EXIT_SUCCESS,
        [.fopen_brightness, .write_level 0, .changed ((some 77 : Option Int).getD 0) 0]⟩ :=
  zero_exact 255 0 0 (some 77) (by decide)

/-- C9: for every argument list without an option flag, `get_args` returns success
and leaves the action (`ACTION_NONE` in `main`) untouched; `change_level` with
`ACTION_NONE` returns `EXIT_FAILURE` and writes no level; and `main` ends with the
exit code `1` without writing a level. -/
theorem no_flag_no_action (pc : Bool) (w : World) (argv : List String) (max_level : Int)
    (hmax : (get_max_level w.max_brightness).1 = some max_level)
    (hnone : ∀ a ∈ argv.drop 1, isOptionFlag a = false) :
    (∀ (m : Int) (args : Arguments_t),
      get_args pc argv m args = some (EXIT_SUCCESS, args, [])) ∧
    (∀ (scanned : Option Int) (g operand m : Int),
      change_level (some scanned) g ⟨.ACTION_NONE, operand⟩ m =
        ⟨.returned EXIT_FAILURE, [.fopen_brightness]⟩) ∧
    (∀ (fp_level : Option (Option Int)) (g operand m : Int),
      written (change_level fp_level g ⟨.ACTION_NONE, operand⟩ m).trace = []) ∧
    (main pc w argv).status.code = some 1 ∧
    written (main pc w argv).trace = [] := by
  have hg : ∀ (m : Int) (args : Arguments_t),
      get_args pc argv m args = some (EXIT_SUCCESS, args, []) := by
    intro m args
    apply get_args_done pc argv m args none ⟨[], []⟩
    simp only [getopt, scanPoint, Getopt.init, nextOptElem_none pc _ hnone]
  have hc : ∀ (fp_level : Option (Option Int)) (g operand m : Int),
      written (change_level fp_level g ⟨.ACTION_NONE, operand⟩ m).trace = [] := by
    intro fp_level g operand m
    cases fp_level <;> simp [change_level, written]
  have hm := main_of_get_args pc w argv max_level _ _ _ hmax (hg max_level ⟨.ACTION_NONE, 0⟩)
  simp only [EXIT_SUCCESS, ne_eq, not_true_eq_false, if_false, List.nil_append] at hm
  refine ⟨hg, ?_, hc, ?_, ?_⟩
  · intro scanned g operand m
    simp [change_level]
  · rw [hm]
    obtain ⟨mb, b, g⟩ := w
    cases b <;> simp [change_level, Status.code, EXIT_FAILURE]
  · rw [hm]
    exact hc w.brightness w.curr_level_indeterminate 0 max_level

/-- Witness of C9: the arguments `bright -` hold no option flag. -/
theorem no_flag_no_action_witness :
    get_args false ["kbd_backlight", "bright", "-"] 100 ⟨.ACTION_NONE, 0⟩ =
      some (EXIT_SUCCESS, ⟨.ACTION_NONE, 0⟩, []) ∧
    (main false ⟨some (some 100), some (some 40), 0⟩
      ["kbd_backlight", "bright", "-"]).status.code = some 1 ∧
    written (main false ⟨some (some 100), some (some 40), 0⟩
      ["kbd_backlight", "bright", "-"]).trace = [] := by
  have h := no_flag_no_action false ⟨some (some 100), some (some 40), 0⟩
    ["kbd_backlight", "bright", "-"] 100 (by rfl) (by decide)
  exact ⟨h.1 100 ⟨.ACTION_NONE, 0⟩, h.2.2.2.1, h.2.2.2.2⟩

/-- C10: for every `max_level` and every argument list whose first option is `-m`,
`-o`, or `-u`, `-d`, `-s` with an operand that `atoi` converts into
`[0, max_level]`, `get_args` returns success with exactly that action and
operand. The state `st` of `getopt` after the first option is arbitrary: whatever
follows the first option is not looked at. -/
theorem first_valid_flag_wins (pc : Bool) (argv : List String) (max_level : Int)
    (args : Arguments_t) (ch : Char) (optarg : Option String) (st : Getopt)
    (hfirst : getopt pc optstring (Getopt.init argv) = (some ch, optarg, st)) :
    (ch = 'm' →
      get_args pc argv max_level args = some (EXIT_SUCCESS, ⟨.ACTION_MAX, args.level⟩, [])) ∧
    (ch = 'o' →
      get_args pc argv max_level args = some (EXIT_SUCCESS, ⟨.ACTION_ZERO, args.level⟩, [])) ∧
    (∀ operand : String, optarg = some operand →
      0 ≤ atoi operand → atoi operand ≤ max_level →
      (ch = 'u' → get_args pc argv max_level args =
        some (EXIT_SUCCESS, ⟨.ACTION_UP, atoi operand⟩, [])) ∧
      (ch = 'd' → get_args pc argv max_level args =
        some (EXIT_SUCCESS, ⟨.ACTION_DOWN, atoi operand⟩, [])) ∧
      (ch = 's' → get_args pc argv max_level args =
        some (EXIT_SUCCESS, ⟨.ACTION_SET, atoi operand⟩, []))) := by
  refine ⟨?_, ?_, ?_⟩
  · rintro rfl
    exact get_args_max pc argv max_level args optarg st hfirst
  · rintro rfl
    exact get_args_zero pc argv max_level args optarg st hfirst
  · rintro operand rfl h0 h1
    have hin : ¬ (atoi operand < 0 ∨ atoi operand > max_level) := by omega
    refine ⟨?_, ?_, ?_⟩ <;> rintro rfl
    · rw [get_args_operand pc argv max_level args _ operand st hfirst (by simp), if_neg hin]
      simp
    · rw [get_args_operand pc argv max_level args _ operand st hfirst (by simp), if_neg hin]
      simp
    · rw [get_args_operand pc argv max_level args _ operand st hfirst (by simp), if_neg hin]
      simp

/-- Witness of C10: `-m -s 150` with `max_level = 100` selects `ACTION_MAX` and
succeeds. -/
theorem first_valid_flag_wins_witness :
    get_args false ["kbd_backlight", "-m", "-s", "150"] 100 ⟨.ACTION_NONE, 0⟩ =
      some (EXIT_SUCCESS, ⟨.ACTION_MAX, 0⟩, []) :=
  (first_valid_flag_wins false ["kbd_backlight", "-m", "-s", "150"] 100 ⟨.ACTION_NONE, 0⟩
    'm' none ⟨["-s", "150"], []⟩ (by rfl)).1 rfl

/-! ## Further facts about the runs -/

/-- A second instance of the rule that the first flag wins: `-o -h` selects
`ACTION_ZERO` and succeeds, the help request after it is not looked at. -/
theorem zero_then_help :
    get_args false ["kbd_backlight", "-o", "-h"] 100 ⟨.ACTION_NONE, 0⟩ =
      some (EXIT_SUCCESS, ⟨.ACTION_ZERO, 0⟩, []) := by
  decide

/-- With `-m` as first argument the arguments after it have no influence. -/
theorem max_then_anything (pc : Bool) (program : String) (rest : List String)
    (max_level : Int) (args : Arguments_t) :
    get_args pc (program :: "-m" :: rest) max_level args =
      some (EXIT_SUCCESS, ⟨.ACTION_MAX, args.level⟩, []) :=
  get_args_max pc _ max_level args none ⟨rest, []⟩ (by rfl)

/-- Once `get_max_level` has produced a maximum, `main` ends with an exit code:
the model of the loop never runs out of iterations. -/
theorem main_exits (pc : Bool) (w : World) (argv : List String) (max_level : Int)
    (hmax : (get_max_level w.max_brightness).1 = some max_level) :
    ∃ code, (main pc w argv).status.code = some code := by
  obtain ⟨rc, args, out, hg, -⟩ := get_args_returns pc argv max_level ⟨.ACTION_NONE, 0⟩
  rw [main_of_get_args pc w argv max_level rc args out hmax hg]
  split
  · exact ⟨rc, rfl⟩
  · obtain ⟨mb, b, g⟩ := w
    obtain ⟨action, level⟩ := args
    cases b <;> cases action <;> simp [change_level, Status.code]

end KbdBacklight
